import Mathlib

/-
Shallow embedding of the cosmo-previews GitHub Action (wundergraph/cosmo-previews).

The reconciliation core lives in `src/main.ts` (the version importing
`githubFiles.js`, here `src/unnamed/part_002`), the change classifier and
revert detector in `src/github.ts`, and the config loader in `src/inputs.ts`
(second half of `src/types.ts`).  Side-effecting calls to the `wgc` CLI are
modelled as an ordered list of `RemoteOp` values: the plan of remote
operations a run would execute, in execution order.  External collaborators
(GitHub API responses, the `wgc feature-flag list` response, `node:path`
resolution) are passed in as explicit parameters.
-/

namespace CosmoPreviews

/-- The `ChangeTypeEnum` of `src/github.ts`: classification of a changed file. -/
inductive ChangeTypeEnum where
  | added
  | copied
  | deleted
  | modified
  | renamed
  | typeChanged
  | unmerged
  | unknown
deriving DecidableEq, Repr

/-- Per-file status string of the GitHub `pulls.listFiles` API, as consumed by
`getChangedFilesFromGithubAPI` (`src/github.ts`). -/
inductive FileStatus where
  | added
  | removed
  | modified
  | renamed
  | copied
  | changed
  | unchanged
  | other
deriving DecidableEq, Repr

/-- One record of the paginated `pulls.listFiles` response. -/
structure PRFile where
  filename : String
  status : FileStatus
deriving DecidableEq, Repr

/-- The `ChangedFiles` record of `src/github.ts`: one bucket of file paths per
change kind, in the object-key insertion order A, C, D, M, R, T, U, X. -/
structure ChangedFiles where
  added : List String
  copied : List String
  deleted : List String
  modified : List String
  renamed : List String
  typeChanged : List String
  unmerged : List String
  unknown : List String
deriving DecidableEq, Repr

/-- The `statusMap` of `getChangedFilesFromGithubAPI`: GitHub API status →
change kind; unmapped statuses become `Unknown`. -/
def statusToChangeType : FileStatus → ChangeTypeEnum
  | .added => .added
  | .removed => .deleted
  | .modified => .modified
  | .renamed => .renamed
  | .copied => .copied
  | .changed => .typeChanged
  | .unchanged => .unmerged
  | .other => .unknown

/-- The empty `ChangedFiles` record that `getChangedFilesFromGithubAPI`
starts from. -/
def emptyChangedFiles : ChangedFiles :=
  ⟨[], [], [], [], [], [], [], []⟩

/-- Push one path onto the bucket of the given change kind (the
`changedFiles[changeType].push(item.filename)` step). -/
def pushChangedFile (cf : ChangedFiles) (ct : ChangeTypeEnum) (p : String) : ChangedFiles :=
  match ct with
  | .added => { cf with added := cf.added ++ [p] }
  | .copied => { cf with copied := cf.copied ++ [p] }
  | .deleted => { cf with deleted := cf.deleted ++ [p] }
  | .modified => { cf with modified := cf.modified ++ [p] }
  | .renamed => { cf with renamed := cf.renamed ++ [p] }
  | .typeChanged => { cf with typeChanged := cf.typeChanged ++ [p] }
  | .unmerged => { cf with unmerged := cf.unmerged ++ [p] }
  | .unknown => { cf with unknown := cf.unknown ++ [p] }

/-- The function `getChangedFilesFromGithubAPI` (`src/github.ts`, lines 21-69), with the
paginated API response passed in.  A renamed file is pushed into both the
Deleted and the Added buckets under the reported filename; every other file
goes into the bucket of its mapped change kind. -/
def getChangedFilesFromGithubAPI (paginatedResponse : List PRFile) : ChangedFiles :=
  paginatedResponse.foldl
    (fun acc item =>
      let changeType := statusToChangeType item.status
      if changeType = ChangeTypeEnum.renamed then
        pushChangedFile (pushChangedFile acc ChangeTypeEnum.deleted item.filename)
          ChangeTypeEnum.added item.filename
      else
        pushChangedFile acc changeType item.filename)
    emptyChangedFiles

/-- Auxiliary character-level loop for `normalizeSeparators` on POSIX: collapse
every run of consecutive forward slashes to a single slash.  The Boolean flag
records whether the previous kept character was a slash. -/
def collapseSlashesAux : Bool → List Char → List Char
  | _, [] => []
  | prevSlash, c :: rest =>
    if c = '/' then
      if prevSlash then collapseSlashesAux true rest
      else c :: collapseSlashesAux true rest
    else c :: collapseSlashesAux false rest

/-- The function `normalizeSeparators` (`src/github.ts`, lines 75-90), POSIX branch
(`isWindows() = false`, the platform the action runs on): remove redundant
slashes, i.e. replace `//+` by `/`. -/
def normalizeSeparators (p : String) : String :=
  String.mk (collapseSlashesAux false p.data)

/-- Modelled behavior of the external `micromatch` library on the two pattern
shapes this action uses: a `**/*.<ext>` glob matches any path with that
extension, and a bare pattern without glob characters (`cosmo.yaml`) matches
exactly that path. -/
def mmMatch (pattern path : String) : Bool :=
  if pattern.data.take 5 == "**/*.".data then
    (pattern.data.drop 4).isSuffixOf path.data
  else path == pattern

/-- The schema-file glob patterns used throughout `src/main.ts` and
`src/github.ts`. -/
def graphqlFilePatterns : List String :=
  ["**/*.graphql", "**/*.gql", "**/*.graphqls"]

/-- The buckets of a `ChangedFiles` record in the iteration order of
`Object.keys(allDiffFiles)`: A, C, D, M, R, T, U, X. -/
def bucketsInOrder (cf : ChangedFiles) : List (List String) :=
  [cf.added, cf.copied, cf.deleted, cf.modified, cf.renamed, cf.typeChanged,
   cf.unmerged, cf.unknown]

/-- The function `getFilteredChangedFiles` (`src/github.ts`, lines 92-117): for each
change-kind bucket in key order, keep the paths matching one of the file
patterns (via micromatch) and normalize their separators; with no patterns,
keep every path unfiltered. -/
def getFilteredChangedFiles (allDiffFiles : ChangedFiles) (filePatterns : List String) :
    List String :=
  let hasFilePatterns := filePatterns.length > 0
  (bucketsInOrder allDiffFiles).flatMap fun files =>
    if hasFilePatterns then
      (files.filter fun f => filePatterns.any fun pat => mmMatch pat f).map normalizeSeparators
    else
      files

/-- One file record of the GitHub `repos.getCommit` response: filename plus its
status string in that commit. -/
structure CommitFile where
  filename : String
  status : String
deriving DecidableEq, Repr

/-- The revert detector `getRemovedGraphQLFilesInLastCommit` (`src/github.ts`, lines 119-170), with
the GitHub API responses passed in: `commits` is the PR's commit-sha list from
`pulls.listCommits` and `getCommitFiles` the `files` field of `repos.getCommit`
per sha (`none` models an absent `files` field).  Takes the PR's last commit,
keeps its files with status `"modified"` that match the schema globs, and
returns those not contained in the cumulative PR-wide filtered list. -/
def getRemovedGraphQLFilesInLastCommit (commits : List String)
    (getCommitFiles : String → Option (List CommitFile))
    (changedGraphQLFilesInPr : List String) : List String :=
  match commits.getLast? with
  | none => []
  | some lastCommitSha =>
    match getCommitFiles lastCommitSha with
    | none => []
    | some files =>
      let modifiedFiles := files.filter fun file => file.status == "modified"
      let modifiedFilePaths := modifiedFiles.map (fun file => file.filename)
      let modifiedGraphQLFiles :=
        (modifiedFilePaths.filter fun f =>
          graphqlFilePatterns.any fun pat => mmMatch pat f).map normalizeSeparators
      modifiedGraphQLFiles.filter fun file => !(changedGraphQLFilesInPr.contains file)

/-- The `FeatureFlag` config entry (`src/types.ts`). -/
structure FeatureFlag where
  name : String
  labels : List String
deriving DecidableEq, Repr

/-- Path-resolved `Subgraph` config entry (`src/types.ts`). -/
structure Subgraph where
  name : String
  schemaPath : String
  routingUrl : String
deriving DecidableEq, Repr

/-- The `ActionType` of `src/types.ts`: the three mutually exclusive lifecycle
events. -/
inductive ActionType where
  | create
  | update
  | destroy
deriving DecidableEq, Repr

/-- The validated `Inputs` record returned by `getInputs` (`src/types.ts`).
`namespaceName` embeds the `namespace` field (a reserved word in Lean). -/
structure Inputs where
  cosmoApiKey : String
  githubToken : String
  actionType : ActionType
  namespaceName : String
  featureFlags : List FeatureFlag
  subgraphs : List Subgraph
  configPath : String
deriving DecidableEq, Repr

/-- A remote operation issued through the `wgc` CLI, in the order the run
executes them.  `createFeatureFlag`'s final Boolean records whether the
command carries `--enabled` (the create path does, the update path's
self-healing create does not). -/
inductive RemoteOp where
  | authWhoami
  | publishFeatureSubgraph (featureSubgraphName baseSubgraphName routingUrl schemaPath nsp : String)
  | deleteSubgraph (featureSubgraphName nsp : String)
  | listFeatureFlags (nsp : String)
  | createFeatureFlag (flagName nsp : String) (labels featureSubgraphs : List String)
      (enabled : Bool)
  | updateFeatureFlag (flagName nsp : String) (labels featureSubgraphs : List String)
  | deleteFeatureFlag (flagName nsp : String)
deriving DecidableEq, Repr

/-- Whether an operation mutates remote state (publish/create/update/delete,
as opposed to the `whoami` and `list` queries). -/
def RemoteOp.isMutation : RemoteOp → Bool
  | .publishFeatureSubgraph .. => true
  | .deleteSubgraph .. => true
  | .createFeatureFlag .. => true
  | .updateFeatureFlag .. => true
  | .deleteFeatureFlag .. => true
  | .authWhoami => false
  | .listFeatureFlags .. => false

/-- Whether an operation creates, updates or deletes a feature flag. -/
def RemoteOp.isFeatureFlagWrite : RemoteOp → Bool
  | .createFeatureFlag .. => true
  | .updateFeatureFlag .. => true
  | .deleteFeatureFlag .. => true
  | _ => false

/-- Whether an operation is a feature-flag delete. -/
def RemoteOp.isDeleteFeatureFlag : RemoteOp → Bool
  | .deleteFeatureFlag .. => true
  | _ => false

/-- Whether an operation is a subgraph delete. -/
def RemoteOp.isDeleteSubgraph : RemoteOp → Bool
  | .deleteSubgraph .. => true
  | _ => false

/-- Whether an operation is `wgc subgraph delete` of the given feature-subgraph
name. -/
def isDeleteSubgraphOfName (nm : String) : RemoteOp → Bool
  | .deleteSubgraph n _ => n == nm
  | _ => false

/-- Whether an operation is `wgc feature-subgraph publish` of the given
feature-subgraph name. -/
def isPublishOfName (nm : String) : RemoteOp → Bool
  | .publishFeatureSubgraph n _ _ _ _ => n == nm
  | _ => false

/-- The PR-number placeholder token of a routing-url template
(`$\x7bPR_NUMBER\x7d` in the source). -/
def prNumberPlaceholder : String := "$\x7bPR_NUMBER\x7d"

/-- The derived feature-subgraph name as computed in the `create` path
(`src/main.ts` line 162): `subgraph.name + "-" + namespace + "-" + prNumber`. -/
def featureSubgraphNameCreate (subgraphName nsp : String) (prNumber : Nat) : String :=
  subgraphName ++ "-" ++ nsp ++ "-" ++ toString prNumber

/-- The derived feature-subgraph name as computed in the `update` path, both in
the reverted-file delete loop (`src/main.ts` line 259) and in the publish loop
(line 276). -/
def featureSubgraphNameUpdate (subgraphName nsp : String) (prNumber : Nat) : String :=
  subgraphName ++ "-" ++ nsp ++ "-" ++ toString prNumber

/-- The derived feature-subgraph name as computed in the `destroy` path
(`src/main.ts` line 385). -/
def featureSubgraphNameDestroy (subgraphName nsp : String) (prNumber : Nat) : String :=
  subgraphName ++ "-" ++ nsp ++ "-" ++ toString prNumber

/-- The derived feature-flag name `flagName + "-" + prNumber`, identical in the
create, update and destroy paths. -/
def derivedFeatureFlagName (flagName : String) (prNumber : Nat) : String :=
  flagName ++ "-" ++ toString prNumber

/-- The subgraph lookup each loop performs per changed file:
`inputs.subgraphs.find(sg => resolve(process.cwd(), file) === sg.schemaPath)`,
with files whose lookup fails skipped.  `resolveFile` stands for the external
`resolve(process.cwd(), ·)`. -/
def matchedSubgraphs (resolveFile : String → String) (subgraphs : List Subgraph)
    (files : List String) : List Subgraph :=
  files.filterMap fun f => subgraphs.find? fun sg => resolveFile f == sg.schemaPath

/-- The plan of remote operations of the `create` function (`src/main.ts`,
lines 136-223): publish one feature subgraph per matching changed file (with
the PR-number placeholder substituted in the routing url), then, unless zero
feature subgraphs were published, create every configured feature flag with
the full published-name list, enabled. -/
def createPlan (resolveFile : String → String) (inputs : Inputs) (prNumber : Nat)
    (changedGraphQLFiles : List String) : List RemoteOp :=
  let matched := matchedSubgraphs resolveFile inputs.subgraphs changedGraphQLFiles
  let featureSubgraphNames := matched.map fun sg =>
    featureSubgraphNameCreate sg.name inputs.namespaceName prNumber
  let publishOps := matched.map fun sg =>
    RemoteOp.publishFeatureSubgraph
      (featureSubgraphNameCreate sg.name inputs.namespaceName prNumber) sg.name
      (sg.routingUrl.replace prNumberPlaceholder (toString prNumber)) sg.schemaPath
      inputs.namespaceName
  if featureSubgraphNames.isEmpty then
    publishOps
  else
    publishOps ++ inputs.featureFlags.map fun ff =>
      RemoteOp.createFeatureFlag (derivedFeatureFlagName ff.name prNumber)
        inputs.namespaceName ff.labels featureSubgraphNames true

/-- The command chosen per flag in the update loop (`src/main.ts`, lines
299-318): `"update"` unless the `feature-flag list` output is present and does
not contain the derived flag name, in which case `"create"`.  The remote list
response is modelled as the list of existing flag names (`none` models empty
stdout). -/
def updateFlagCommandName (listResp : Option (List String)) (flagName : String) : String :=
  match listResp with
  | none => "update"
  | some flags => if flags.contains flagName then "update" else "create"

/-- The feature-flag operation issued for one configured flag in the update
loop (`src/main.ts`, lines 297-335). -/
def updateFlagOp (nsp : String) (prNumber : Nat) (featureSubgraphNames : List String)
    (listResp : FeatureFlag → Option (List String)) (ff : FeatureFlag) : RemoteOp :=
  let flagName := derivedFeatureFlagName ff.name prNumber
  if updateFlagCommandName (listResp ff) flagName == "create" then
    RemoteOp.createFeatureFlag flagName nsp ff.labels featureSubgraphNames false
  else
    RemoteOp.updateFeatureFlag flagName nsp ff.labels featureSubgraphNames

/-- The published feature-subgraph name list accumulated by the update publish
loop (`src/main.ts`, lines 271-287). -/
def updateFeatureSubgraphNames (resolveFile : String → String) (inputs : Inputs)
    (prNumber : Nat) (changedGraphQLFiles : List String) : List String :=
  (matchedSubgraphs resolveFile inputs.subgraphs changedGraphQLFiles).map fun sg =>
    featureSubgraphNameUpdate sg.name inputs.namespaceName prNumber

/-- The plan of remote operations of the `update` function (`src/main.ts`,
lines 225-362): delete the feature subgraph of every reverted file, publish a
feature subgraph per matching changed file, then, unless zero feature
subgraphs were published, for each configured flag query the remote flag list
and issue update (or self-healing create) with the full published-name
list. -/
def updatePlan (resolveFile : String → String) (inputs : Inputs) (prNumber : Nat)
    (changedGraphQLFiles removedGraphQLFiles : List String)
    (listResp : FeatureFlag → Option (List String)) : List RemoteOp :=
  let deleteOps := (matchedSubgraphs resolveFile inputs.subgraphs removedGraphQLFiles).map
    fun sg =>
      RemoteOp.deleteSubgraph (featureSubgraphNameUpdate sg.name inputs.namespaceName prNumber)
        inputs.namespaceName
  let matched := matchedSubgraphs resolveFile inputs.subgraphs changedGraphQLFiles
  let featureSubgraphNames := updateFeatureSubgraphNames resolveFile inputs prNumber
    changedGraphQLFiles
  let publishOps := matched.map fun sg =>
    RemoteOp.publishFeatureSubgraph
      (featureSubgraphNameUpdate sg.name inputs.namespaceName prNumber) sg.name
      (sg.routingUrl.replace prNumberPlaceholder (toString prNumber)) sg.schemaPath
      inputs.namespaceName
  if featureSubgraphNames.isEmpty then
    deleteOps ++ publishOps
  else
    deleteOps ++ publishOps ++ inputs.featureFlags.flatMap fun ff =>
      [RemoteOp.listFeatureFlags inputs.namespaceName,
       updateFlagOp inputs.namespaceName prNumber featureSubgraphNames listResp ff]

/-- The plan of remote operations of the `destroy` function (`src/main.ts`,
lines 364-397): delete every configured feature flag's derived name, then
delete the feature subgraph of every matching changed file. -/
def destroyPlan (resolveFile : String → String) (inputs : Inputs) (prNumber : Nat)
    (changedGraphQLFiles : List String) : List RemoteOp :=
  (inputs.featureFlags.map fun ff =>
    RemoteOp.deleteFeatureFlag (derivedFeatureFlagName ff.name prNumber) inputs.namespaceName)
  ++ ((matchedSubgraphs resolveFile inputs.subgraphs changedGraphQLFiles).map fun sg =>
    RemoteOp.deleteSubgraph (featureSubgraphNameDestroy sg.name inputs.namespaceName prNumber)
      inputs.namespaceName)

/-- The raw subgraph entry of the parsed `cosmo.yaml` config (`src/types.ts`). -/
structure ConfigSubgraph where
  name : String
  schema_path : String
  routing_url : String
deriving DecidableEq, Repr

/-- The parsed `cosmo.yaml` config (`src/types.ts`).  The `feature_flags` and
`subgraphs` fields are `Option`s because `yaml.load` may leave them
`undefined`, which `getInputs` checks for. -/
structure Config where
  namespaceName : String
  feature_flags : Option (List FeatureFlag)
  subgraphs : Option (List ConfigSubgraph)
deriving DecidableEq, Repr

/-- The action's invocation environment as read by `getInputs`
(`src/inputs.ts`): the raw input strings from `core.getInput`, whether the
resolved config file exists, and the config that `yaml.load` would parse from
its content. -/
structure ActionEnv where
  configPathInput : String
  cosmoApiKey : String
  githubToken : String
  createInput : String
  updateInput : String
  destroyInput : String
  fileExists : Bool
  config : Config
deriving DecidableEq, Repr

/-- The number of lifecycle booleans set, exactly as `src/inputs.ts` computes
it: `[create, update, destroy].filter(Boolean).length`. -/
def lifecycleTrueCount (env : ActionEnv) : Nat :=
  ([env.createInput == "true", env.updateInput == "true", env.destroyInput == "true"].filter
    fun b => b).length

/-- The config loader `getInputs` (`src/inputs.ts`, i.e. the second half of `src/types.ts`,
lines 142-208): validate the invocation and the parsed manifest, returning
`none` (the `core.setFailed` + early-return paths) on any failed check, else
the path-resolved `Inputs`.  `resolvePath` stands for the external
`resolve(process.cwd(), ·)`. -/
def getInputs (resolvePath : String → String) (env : ActionEnv) : Option Inputs :=
  let configPath := if env.configPathInput == "" then ".github/cosmo.yaml"
    else env.configPathInput
  let create := env.createInput == "true"
  let update := env.updateInput == "true"
  let destroy := env.destroyInput == "true"
  if env.githubToken == "" then none
  else if !create && !update && !destroy then none
  else if lifecycleTrueCount env ≠ 1 then none
  else
    let actionType : ActionType := if create then .create
      else if update then .update else .destroy
    if !env.fileExists then none
    else
      match env.config.feature_flags with
      | none => none
      | some featureFlags =>
        if featureFlags.isEmpty then none
        else
          match env.config.subgraphs with
          | none => none
          | some configSubgraphs =>
            if configSubgraphs.isEmpty then none
            else
              some
                { cosmoApiKey := env.cosmoApiKey
                  githubToken := env.githubToken
                  actionType := actionType
                  namespaceName := env.config.namespaceName
                  featureFlags := featureFlags
                  subgraphs := configSubgraphs.map fun sg =>
                    { name := sg.name
                      schemaPath := resolvePath sg.schema_path
                      routingUrl := sg.routing_url }
                  configPath := configPath }

/-- Modelled from the spec: `hasCosmoConfigChangedInLastCommit` is imported by
`src/main.ts` from `githubFiles.js` but its definition is not among the
sources.  Per the spec (§4.2), it is a second use of the changed-file filter
restricted to the single sentinel path `cosmo.yaml`, applied to the latest
commit's changed-file set (§8, property 5): true iff some file of the PR's
last commit matches the sentinel pattern. -/
def hasCosmoConfigChangedInLastCommit (commits : List String)
    (getCommitFiles : String → Option (List CommitFile)) : Bool :=
  match commits.getLast? with
  | none => false
  | some lastCommitSha =>
    match getCommitFiles lastCommitSha with
    | none => false
    | some files => files.any fun file => mmMatch "cosmo.yaml" file.filename

/-- The observable result of one `run` invocation: the ordered remote-operation
plan, and whether the run called `core.setFailed` before dispatching to the
lifecycle handler. -/
structure RunResult where
  ops : List RemoteOp
  failedEarly : Bool
deriving DecidableEq, Repr

/-- The `run` function of `src/main.ts` (lines 24-105) as a plan: authenticate
(`wgc auth whoami`; `whoamiOk = false` models a failed lookup, aborting the
run), fetch and filter the PR's changed files, on an update event hard-fail if
the cosmo config changed in the last commit, else dispatch to the lifecycle
handler for the selected action type. -/
def runModel (resolveFile : String → String) (inputs : Inputs) (prNumber : Nat)
    (whoamiOk : Bool) (prFiles : List PRFile) (commits : List String)
    (getCommitFiles : String → Option (List CommitFile))
    (listResp : FeatureFlag → Option (List String)) : RunResult :=
  if !whoamiOk then ⟨[RemoteOp.authWhoami], true⟩
  else
    let changedFiles := getChangedFilesFromGithubAPI prFiles
    let changedGraphQLFiles := getFilteredChangedFiles changedFiles graphqlFilePatterns
    if inputs.actionType = ActionType.update
        && hasCosmoConfigChangedInLastCommit commits getCommitFiles then
      ⟨[RemoteOp.authWhoami], true⟩
    else
      match inputs.actionType with
      | .create =>
        ⟨RemoteOp.authWhoami :: createPlan resolveFile inputs prNumber changedGraphQLFiles,
         false⟩
      | .update =>
        ⟨RemoteOp.authWhoami ::
          updatePlan resolveFile inputs prNumber changedGraphQLFiles
            (getRemovedGraphQLFilesInLastCommit commits getCommitFiles changedGraphQLFiles)
            listResp,
         false⟩
      | .destroy =>
        ⟨RemoteOp.authWhoami :: destroyPlan resolveFile inputs prNumber changedGraphQLFiles,
         false⟩

/-- The revert detector as the spec states it (§4.3 and claim C4): the set
difference of (files with status `"modified"` in the PR's latest commit,
filtered by the schema glob patterns and separator-normalized) minus (the
cumulative PR-wide filtered changed-file list passed in). -/
def revertDetectorSpec (lastCommitFiles : List CommitFile)
    (changedGraphQLFilesInPr : List String) : List String :=
  let modifiedSchemaFiles :=
    (((lastCommitFiles.filter fun file => file.status == "modified").map
      fun file => file.filename).filter fun f =>
        graphqlFilePatterns.any fun pat => mmMatch pat f).map normalizeSeparators
  modifiedSchemaFiles.filter fun f => ¬ (f ∈ changedGraphQLFilesInPr)

/-- C1: for every subgraph name, namespace, and PR number, the derived
feature-subgraph name computed during the create run, the update run, and the
destroy run is the same string `subgraphName-namespace-prNumber`; the three
lifecycle paths never diverge in naming. -/
theorem featureSubgraphName_deterministic (subgraphName nsp : String) (prNumber : Nat) :
    featureSubgraphNameCreate subgraphName nsp prNumber
        = featureSubgraphNameUpdate subgraphName nsp prNumber
      ∧ featureSubgraphNameUpdate subgraphName nsp prNumber
        = featureSubgraphNameDestroy subgraphName nsp prNumber
      ∧ featureSubgraphNameCreate subgraphName nsp prNumber
        = subgraphName ++ "-" ++ nsp ++ "-" ++ toString prNumber :=
  ⟨rfl, rfl, rfl⟩

/-- C4: the revert detector returns exactly the set difference (schema files
with status "modified" in the PR's single latest commit, filtered by the
schema glob patterns) minus (the cumulative PR-wide filtered changed-file list
passed in), and when the PR has zero commits (or the commit-detail query
carries no file list) it returns the empty list rather than failing. -/
theorem getRemovedGraphQLFilesInLastCommit_eq_spec (commits : List String)
    (getCommitFiles : String → Option (List CommitFile))
    (changedGraphQLFilesInPr : List String) :
    getRemovedGraphQLFilesInLastCommit commits getCommitFiles changedGraphQLFilesInPr
      = match commits.getLast? with
        | none => []
        | some sha =>
          match getCommitFiles sha with
          | none => []
          | some files => revertDetectorSpec files changedGraphQLFilesInPr := by
  cases hL : commits.getLast? with
  | none => simp [getRemovedGraphQLFilesInLastCommit, hL]
  | some sha =>
    cases hg : getCommitFiles sha with
    | none => simp [getRemovedGraphQLFilesInLastCommit, hL, hg]
    | some files =>
      simp [getRemovedGraphQLFilesInLastCommit, revertDetectorSpec, hL, hg,
        List.contains, List.elem_eq_mem, decide_not]

/-- C7: input/config loading fails fast and returns no configuration whenever
the manifest file is absent, the declared feature-flag list is empty or
missing, the declared subgraph list is empty or missing, or the number of
lifecycle-event booleans set to true among create/update/destroy is not
exactly one. -/
theorem getInputs_fail_fast (resolvePath : String → String) (env : ActionEnv)
    (h : env.fileExists = false
      ∨ env.config.feature_flags = none
      ∨ env.config.feature_flags = some []
      ∨ env.config.subgraphs = none
      ∨ env.config.subgraphs = some []
      ∨ lifecycleTrueCount env ≠ 1) :
    getInputs resolvePath env = none := by
  unfold getInputs
  repeat' split
  all_goals first
    | rfl
    | (rcases h with h | h | h | h | h | h <;> simp_all)

/-- Closed instance of C7: an environment whose manifest file is absent makes
`getInputs` return `none`. -/
theorem getInputs_fail_fast_witness :
    (ActionEnv.fileExists
        ⟨"", "key", "token", "true", "false", "false", false,
          ⟨"ns", some [⟨"ff", ["team=a"]⟩], some [⟨"sg", "s.graphql", "http://u"⟩]⟩⟩
      = false)
    ∧ getInputs (fun p => p)
        ⟨"", "key", "token", "true", "false", "false", false,
          ⟨"ns", some [⟨"ff", ["team=a"]⟩], some [⟨"sg", "s.graphql", "http://u"⟩]⟩⟩
      = none :=
  ⟨rfl,
   getInputs_fail_fast (fun p => p)
     ⟨"", "key", "token", "true", "false", "false", false,
       ⟨"ns", some [⟨"ff", ["team=a"]⟩], some [⟨"sg", "s.graphql", "http://u"⟩]⟩⟩
     (Or.inl rfl)⟩

/-- C8: in every destroy run, every feature-flag delete operation comes before
every feature-subgraph delete operation in the plan: flags are torn down
before subgraphs. -/
theorem destroy_flags_before_subgraphs (resolveFile : String → String) (inputs : Inputs)
    (prNumber : Nat) (changedGraphQLFiles : List String) (i j : Nat)
    (hi : i < (destroyPlan resolveFile inputs prNumber changedGraphQLFiles).length)
    (hj : j < (destroyPlan resolveFile inputs prNumber changedGraphQLFiles).length)
    (hflag : ((destroyPlan resolveFile inputs prNumber changedGraphQLFiles).get
      ⟨i, hi⟩).isDeleteFeatureFlag = true)
    (hsub : ((destroyPlan resolveFile inputs prNumber changedGraphQLFiles).get
      ⟨j, hj⟩).isDeleteSubgraph = true) :
    i < j := by
  have hilt : i < (inputs.featureFlags.map fun ff =>
      RemoteOp.deleteFeatureFlag (derivedFeatureFlagName ff.name prNumber)
        inputs.namespaceName).length := by
    by_contra hge
    push_neg at hge
    rw [List.get_eq_getElem] at hflag
    unfold destroyPlan at hflag
    rw [List.getElem_append_right hge, List.getElem_map] at hflag
    simp [RemoteOp.isDeleteFeatureFlag] at hflag
  have hjge : (inputs.featureFlags.map fun ff =>
      RemoteOp.deleteFeatureFlag (derivedFeatureFlagName ff.name prNumber)
        inputs.namespaceName).length ≤ j := by
    by_contra hlt
    push_neg at hlt
    rw [List.get_eq_getElem] at hsub
    unfold destroyPlan at hsub
    rw [List.getElem_append_left hlt, List.getElem_map] at hsub
    simp [RemoteOp.isDeleteSubgraph] at hsub
  exact Nat.lt_of_lt_of_le hilt hjge

/-- Closed instance of C8: in a concrete destroy plan with one flag and one
matching subgraph, the flag delete (index 0) precedes the subgraph delete
(index 1). -/
theorem destroy_flags_before_subgraphs_witness :
    (((destroyPlan (fun p => p)
        ⟨"key", "token", ActionType.destroy, "ns", [⟨"ff", ["team=a"]⟩],
          [⟨"sg", "a.graphql", "http://u"⟩], "c"⟩ 7 ["a.graphql"]).get
        ⟨0, by decide⟩).isDeleteFeatureFlag = true)
    ∧ (((destroyPlan (fun p => p)
        ⟨"key", "token", ActionType.destroy, "ns", [⟨"ff", ["team=a"]⟩],
          [⟨"sg", "a.graphql", "http://u"⟩], "c"⟩ 7 ["a.graphql"]).get
        ⟨1, by decide⟩).isDeleteSubgraph = true)
    ∧ 0 < 1 :=
  ⟨by decide, by decide,
   destroy_flags_before_subgraphs (fun p => p)
     ⟨"key", "token", ActionType.destroy, "ns", [⟨"ff", ["team=a"]⟩],
       [⟨"sg", "a.graphql", "http://u"⟩], "c"⟩ 7 ["a.graphql"] 0 1
     (by decide) (by decide) (by decide) (by decide)⟩

/-- C2, counterexample: a destroy run whose changed-file list is empty (so no
changed file matches any configured subgraph) still attempts a feature-flag
operation — it deletes every configured flag's derived name. -/
theorem empty_diff_destroy_flag_delete_counterexample :
    ((destroyPlan (fun p => p)
      ⟨"key", "token", ActionType.destroy, "ns", [⟨"ff", ["team=a"]⟩],
        [⟨"sg", "a.graphql", "http://u"⟩], "c"⟩ 7 []).any
      RemoteOp.isFeatureFlagWrite) = true := by
  decide

/-- C2, amended: for create and update runs, if no changed file matches any
configured subgraph's resolved schema path then no feature-flag operation
(create, update or delete) is attempted; a destroy run, however, always issues
a feature-flag delete for every configured flag, regardless of the changed
files. -/
theorem empty_diff_short_circuit (resolveFile : String → String) (inputs : Inputs)
    (prNumber : Nat) (changedGraphQLFiles removedGraphQLFiles : List String)
    (listResp : FeatureFlag → Option (List String))
    (h : ∀ f ∈ changedGraphQLFiles,
      inputs.subgraphs.find? (fun sg => resolveFile f == sg.schemaPath) = none) :
    ((createPlan resolveFile inputs prNumber changedGraphQLFiles).all
        fun op => !op.isFeatureFlagWrite) = true
    ∧ ((updatePlan resolveFile inputs prNumber changedGraphQLFiles removedGraphQLFiles
        listResp).all fun op => !op.isFeatureFlagWrite) = true
    ∧ ∀ ff ∈ inputs.featureFlags,
        RemoteOp.deleteFeatureFlag (derivedFeatureFlagName ff.name prNumber)
            inputs.namespaceName
          ∈ destroyPlan resolveFile inputs prNumber changedGraphQLFiles := by
  have hm : matchedSubgraphs resolveFile inputs.subgraphs changedGraphQLFiles = [] := by
    unfold matchedSubgraphs
    exact List.filterMap_eq_nil_iff.mpr h
  refine ⟨?_, ?_, ?_⟩
  · simp [createPlan, hm]
  · simp [updatePlan, updateFeatureSubgraphNames, hm, RemoteOp.isFeatureFlagWrite]
  · intro ff hff
    unfold destroyPlan
    exact List.mem_append_left _ (List.mem_map_of_mem _ hff)

/-- Closed instance of the amended C2: with one configured subgraph whose
schema path no changed file resolves to, the create and update plans contain
no feature-flag operation and the destroy plan deletes the configured flag. -/
theorem empty_diff_short_circuit_witness :
    (∀ f ∈ ["x.graphql"],
      (Inputs.subgraphs
        ⟨"key", "token", ActionType.update, "ns", [⟨"ff", ["team=a"]⟩],
          [⟨"sg", "b.graphql", "http://u"⟩], "c"⟩).find?
        (fun sg => (fun p => p) f == sg.schemaPath) = none)
    ∧ (((createPlan (fun p => p)
        ⟨"key", "token", ActionType.update, "ns", [⟨"ff", ["team=a"]⟩],
          [⟨"sg", "b.graphql", "http://u"⟩], "c"⟩ 7 ["x.graphql"]).all
        fun op => !op.isFeatureFlagWrite) = true
      ∧ ((updatePlan (fun p => p)
          ⟨"key", "token", ActionType.update, "ns", [⟨"ff", ["team=a"]⟩],
            [⟨"sg", "b.graphql", "http://u"⟩], "c"⟩ 7 ["x.graphql"] ["y.graphql"]
          (fun _ => none)).all fun op => !op.isFeatureFlagWrite) = true
      ∧ ∀ ff ∈ Inputs.featureFlags
          ⟨"key", "token", ActionType.update, "ns", [⟨"ff", ["team=a"]⟩],
            [⟨"sg", "b.graphql", "http://u"⟩], "c"⟩,
          RemoteOp.deleteFeatureFlag (derivedFeatureFlagName ff.name 7) "ns"
            ∈ destroyPlan (fun p => p)
              ⟨"key", "token", ActionType.update, "ns", [⟨"ff", ["team=a"]⟩],
                [⟨"sg", "b.graphql", "http://u"⟩], "c"⟩ 7 ["x.graphql"]) :=
  ⟨by decide,
   empty_diff_short_circuit (fun p => p)
     ⟨"key", "token", ActionType.update, "ns", [⟨"ff", ["team=a"]⟩],
       [⟨"sg", "b.graphql", "http://u"⟩], "c"⟩ 7 ["x.graphql"] ["y.graphql"]
     (fun _ => none) (by decide)⟩

/-- C3: in every update-event run in which the manifest file appears in the
latest commit's changed-file set (the `hasCosmoConfigChangedInLastCommit`
check), the run fails before dispatching to a lifecycle handler, and no remote
mutation (publish, create, update or delete) appears in its plan. -/
theorem update_manifest_guard (resolveFile : String → String) (inputs : Inputs)
    (prNumber : Nat) (whoamiOk : Bool) (prFiles : List PRFile) (commits : List String)
    (getCommitFiles : String → Option (List CommitFile))
    (listResp : FeatureFlag → Option (List String))
    (hact : inputs.actionType = ActionType.update)
    (hchanged : hasCosmoConfigChangedInLastCommit commits getCommitFiles = true) :
    (runModel resolveFile inputs prNumber whoamiOk prFiles commits getCommitFiles
        listResp).failedEarly = true
    ∧ ((runModel resolveFile inputs prNumber whoamiOk prFiles commits getCommitFiles
        listResp).ops.all fun op => !op.isMutation) = true := by
  cases whoamiOk with
  | false => simp [runModel, RemoteOp.isMutation]
  | true => simp [runModel, hact, hchanged, RemoteOp.isMutation]

/-- Closed instance of C3: an update run whose last commit touched `cosmo.yaml`
fails early with no mutation in its plan. -/
theorem update_manifest_guard_witness :
    (Inputs.actionType
        ⟨"key", "token", ActionType.update, "ns", [⟨"ff", ["team=a"]⟩],
          [⟨"sg", "a.graphql", "http://u"⟩], "c"⟩ = ActionType.update)
    ∧ hasCosmoConfigChangedInLastCommit ["c1"]
        (fun _ => some [⟨"cosmo.yaml", "modified"⟩]) = true
    ∧ ((runModel (fun p => p)
        ⟨"key", "token", ActionType.update, "ns", [⟨"ff", ["team=a"]⟩],
          [⟨"sg", "a.graphql", "http://u"⟩], "c"⟩ 7 true
        [⟨"a.graphql", FileStatus.modified⟩] ["c1"]
        (fun _ => some [⟨"cosmo.yaml", "modified"⟩]) (fun _ => none)).failedEarly = true
      ∧ ((runModel (fun p => p)
          ⟨"key", "token", ActionType.update, "ns", [⟨"ff", ["team=a"]⟩],
            [⟨"sg", "a.graphql", "http://u"⟩], "c"⟩ 7 true
          [⟨"a.graphql", FileStatus.modified⟩] ["c1"]
          (fun _ => some [⟨"cosmo.yaml", "modified"⟩]) (fun _ => none)).ops.all
          fun op => !op.isMutation) = true) :=
  ⟨rfl, by decide,
   update_manifest_guard (fun p => p)
     ⟨"key", "token", ActionType.update, "ns", [⟨"ff", ["team=a"]⟩],
       [⟨"sg", "a.graphql", "http://u"⟩], "c"⟩ 7 true
     [⟨"a.graphql", FileStatus.modified⟩] ["c1"]
     (fun _ => some [⟨"cosmo.yaml", "modified"⟩]) (fun _ => none) rfl (by decide)⟩

/-- C9: for every changed schema file matching a configured subgraph, the
publish operation emitted by the create run uses a routing URL equal to the
subgraph's routing-url template with every occurrence of the PR-number
placeholder replaced by the concrete PR number. -/
theorem create_publish_routing_url (resolveFile : String → String) (inputs : Inputs)
    (prNumber : Nat) (changedGraphQLFiles : List String) (f : String) (sg : Subgraph)
    (hf : f ∈ changedGraphQLFiles)
    (hsg : inputs.subgraphs.find? (fun s => resolveFile f == s.schemaPath) = some sg) :
    RemoteOp.publishFeatureSubgraph
        (featureSubgraphNameCreate sg.name inputs.namespaceName prNumber) sg.name
        (sg.routingUrl.replace prNumberPlaceholder (toString prNumber)) sg.schemaPath
        inputs.namespaceName
      ∈ createPlan resolveFile inputs prNumber changedGraphQLFiles := by
  have hmem : sg ∈ matchedSubgraphs resolveFile inputs.subgraphs changedGraphQLFiles := by
    unfold matchedSubgraphs
    exact List.mem_filterMap.mpr ⟨f, hf, hsg⟩
  have hop : RemoteOp.publishFeatureSubgraph
      (featureSubgraphNameCreate sg.name inputs.namespaceName prNumber) sg.name
      (sg.routingUrl.replace prNumberPlaceholder (toString prNumber)) sg.schemaPath
      inputs.namespaceName
      ∈ (matchedSubgraphs resolveFile inputs.subgraphs changedGraphQLFiles).map fun sg =>
        RemoteOp.publishFeatureSubgraph
          (featureSubgraphNameCreate sg.name inputs.namespaceName prNumber) sg.name
          (sg.routingUrl.replace prNumberPlaceholder (toString prNumber)) sg.schemaPath
          inputs.namespaceName :=
    List.mem_map_of_mem _ hmem
  simp only [createPlan]
  split
  · exact hop
  · exact List.mem_append_left _ hop

/-- Closed instance of C9: the spec's worked example — subgraph `products`
with a placeholder routing url, PR #42, changed file matching its schema
path — yields a publish with the substituted routing url in the create
plan. -/
theorem create_publish_routing_url_witness :
    ("schemas/products.graphql" ∈ ["schemas/products.graphql"])
    ∧ ((Inputs.subgraphs
        ⟨"key", "token", ActionType.create, "prod-preview", [⟨"ff", ["team=a"]⟩],
          [⟨"products", "schemas/products.graphql",
            "http://products-$\x7bPR_NUMBER\x7d.example.com"⟩], "c"⟩).find?
        (fun s => (fun p => p) "schemas/products.graphql" == s.schemaPath)
      = some ⟨"products", "schemas/products.graphql",
          "http://products-$\x7bPR_NUMBER\x7d.example.com"⟩)
    ∧ RemoteOp.publishFeatureSubgraph
        (featureSubgraphNameCreate "products" "prod-preview" 42) "products"
        (String.replace "http://products-$\x7bPR_NUMBER\x7d.example.com"
          prNumberPlaceholder (toString (42 : Nat)))
        "schemas/products.graphql" "prod-preview"
      ∈ createPlan (fun p => p)
          ⟨"key", "token", ActionType.create, "prod-preview", [⟨"ff", ["team=a"]⟩],
            [⟨"products", "schemas/products.graphql",
              "http://products-$\x7bPR_NUMBER\x7d.example.com"⟩], "c"⟩ 42
          ["schemas/products.graphql"] :=
  ⟨by decide, by decide,
   create_publish_routing_url (fun p => p)
     ⟨"key", "token", ActionType.create, "prod-preview", [⟨"ff", ["team=a"]⟩],
       [⟨"products", "schemas/products.graphql",
         "http://products-$\x7bPR_NUMBER\x7d.example.com"⟩], "c"⟩ 42
     ["schemas/products.graphql"] "schemas/products.graphql"
     ⟨"products", "schemas/products.graphql",
       "http://products-$\x7bPR_NUMBER\x7d.example.com"⟩
     (by decide) (by decide)⟩

/-- C6: in an update run with at least one published feature subgraph, a
configured flag whose derived name is absent from the remote feature-flag
list gets a feature-flag create command (with the current labels and the full
feature-subgraph list) instead of an update command, and that create command
is part of the run's plan. -/
theorem update_selfhealing_flag_create (resolveFile : String → String) (inputs : Inputs)
    (prNumber : Nat) (changedGraphQLFiles removedGraphQLFiles : List String)
    (listResp : FeatureFlag → Option (List String)) (ff : FeatureFlag)
    (existing : List String)
    (hff : ff ∈ inputs.featureFlags)
    (hne : updateFeatureSubgraphNames resolveFile inputs prNumber changedGraphQLFiles ≠ [])
    (hlist : listResp ff = some existing)
    (habsent : derivedFeatureFlagName ff.name prNumber ∉ existing) :
    updateFlagOp inputs.namespaceName prNumber
        (updateFeatureSubgraphNames resolveFile inputs prNumber changedGraphQLFiles)
        listResp ff
      = RemoteOp.createFeatureFlag (derivedFeatureFlagName ff.name prNumber)
          inputs.namespaceName ff.labels
          (updateFeatureSubgraphNames resolveFile inputs prNumber changedGraphQLFiles) false
    ∧ RemoteOp.createFeatureFlag (derivedFeatureFlagName ff.name prNumber)
          inputs.namespaceName ff.labels
          (updateFeatureSubgraphNames resolveFile inputs prNumber changedGraphQLFiles) false
        ∈ updatePlan resolveFile inputs prNumber changedGraphQLFiles removedGraphQLFiles
            listResp := by
  have h1 : updateFlagOp inputs.namespaceName prNumber
      (updateFeatureSubgraphNames resolveFile inputs prNumber changedGraphQLFiles)
      listResp ff
      = RemoteOp.createFeatureFlag (derivedFeatureFlagName ff.name prNumber)
          inputs.namespaceName ff.labels
          (updateFeatureSubgraphNames resolveFile inputs prNumber changedGraphQLFiles)
          false := by
    unfold updateFlagOp updateFlagCommandName
    rw [hlist]
    simp [List.contains, List.elem_eq_mem, habsent]
  refine ⟨h1, ?_⟩
  simp only [updatePlan]
  rw [if_neg (by simpa using hne)]
  refine List.mem_append_right _ (List.mem_flatMap.mpr ⟨ff, hff, ?_⟩)
  rw [h1]
  exact List.mem_cons_of_mem _ (List.mem_singleton.mpr rfl)

/-- Closed instance of C6: one matching changed file, a remote flag list not
containing the derived name `ff-7` — the per-flag operation is a create, and
the create is in the update plan. -/
theorem update_selfhealing_flag_create_witness :
    (⟨"ff", ["team=a"]⟩ ∈ Inputs.featureFlags
        ⟨"key", "token", ActionType.update, "ns", [⟨"ff", ["team=a"]⟩],
          [⟨"sg", "a.graphql", "http://u"⟩], "c"⟩)
    ∧ updateFeatureSubgraphNames (fun p => p)
        ⟨"key", "token", ActionType.update, "ns", [⟨"ff", ["team=a"]⟩],
          [⟨"sg", "a.graphql", "http://u"⟩], "c"⟩ 7 ["a.graphql"] ≠ []
    ∧ derivedFeatureFlagName "ff" 7 ∉ ["other-1"]
    ∧ RemoteOp.createFeatureFlag (derivedFeatureFlagName "ff" 7) "ns" ["team=a"]
        (updateFeatureSubgraphNames (fun p => p)
          ⟨"key", "token", ActionType.update, "ns", [⟨"ff", ["team=a"]⟩],
            [⟨"sg", "a.graphql", "http://u"⟩], "c"⟩ 7 ["a.graphql"]) false
      ∈ updatePlan (fun p => p)
          ⟨"key", "token", ActionType.update, "ns", [⟨"ff", ["team=a"]⟩],
            [⟨"sg", "a.graphql", "http://u"⟩], "c"⟩ 7 ["a.graphql"] []
          (fun _ => some ["other-1"]) :=
  ⟨by decide, by decide, by decide,
   (update_selfhealing_flag_create (fun p => p)
     ⟨"key", "token", ActionType.update, "ns", [⟨"ff", ["team=a"]⟩],
       [⟨"sg", "a.graphql", "http://u"⟩], "c"⟩ 7 ["a.graphql"] []
     (fun _ => some ["other-1"]) ⟨"ff", ["team=a"]⟩ ["other-1"]
     (by decide) (by decide) rfl (by decide)).2⟩

/-- C5: for a PR whose latest commit shows `a.graphql` as modified while the
cumulative diff no longer contains any file resolving to the configured
subgraph's schema path (commit 2 reverted commit 1's change), the update run
emits exactly one subgraph-delete operation for that subgraph's derived
feature-subgraph name and zero publish operations for it. -/
theorem update_revert_single_delete (resolveFile : String → String)
    (apiKey token nsp cfgPath sha : String) (ffs : List FeatureFlag) (sg : Subgraph)
    (prNumber : Nat) (changedGraphQLFiles commits : List String)
    (getCommitFiles : String → Option (List CommitFile))
    (listResp : FeatureFlag → Option (List String))
    (hlast : commits.getLast? = some sha)
    (hfiles : getCommitFiles sha = some [⟨"a.graphql", "modified"⟩])
    (hres : resolveFile "a.graphql" = sg.schemaPath)
    (hnotin : "a.graphql" ∉ changedGraphQLFiles)
    (hnomatch : ∀ f ∈ changedGraphQLFiles, resolveFile f ≠ sg.schemaPath) :
    ((updatePlan resolveFile ⟨apiKey, token, ActionType.update, nsp, ffs, [sg], cfgPath⟩
        prNumber changedGraphQLFiles
        (getRemovedGraphQLFilesInLastCommit commits getCommitFiles changedGraphQLFiles)
        listResp).countP
        (isDeleteSubgraphOfName (featureSubgraphNameUpdate sg.name nsp prNumber)) = 1)
    ∧ ((updatePlan resolveFile ⟨apiKey, token, ActionType.update, nsp, ffs, [sg], cfgPath⟩
        prNumber changedGraphQLFiles
        (getRemovedGraphQLFilesInLastCommit commits getCommitFiles changedGraphQLFiles)
        listResp).countP
        (isPublishOfName (featureSubgraphNameUpdate sg.name nsp prNumber)) = 0) := by
  have hrem : getRemovedGraphQLFilesInLastCommit commits getCommitFiles changedGraphQLFiles
      = ["a.graphql"] := by
    have hnorm : normalizeSeparators "a.graphql" = "a.graphql" := by decide
    simp +decide [getRemovedGraphQLFilesInLastCommit, hlast, hfiles, List.contains,
      List.elem_eq_mem, hnotin, hnorm]
  have hmatched : matchedSubgraphs resolveFile [sg] changedGraphQLFiles = [] := by
    unfold matchedSubgraphs
    apply List.filterMap_eq_nil_iff.mpr
    intro f hf
    have hbeq : (resolveFile f == sg.schemaPath) = false :=
      beq_eq_false_iff_ne.mpr (hnomatch f hf)
    simp [List.find?, hbeq]
  have hdel : matchedSubgraphs resolveFile [sg] ["a.graphql"] = [sg] := by
    have hbeq : (resolveFile "a.graphql" == sg.schemaPath) = true := by
      simp [hres]
    simp [matchedSubgraphs, List.find?, hbeq]
  constructor
  · simp [updatePlan, updateFeatureSubgraphNames, hrem, hmatched, hdel,
      isDeleteSubgraphOfName]
  · simp [updatePlan, updateFeatureSubgraphNames, hrem, hmatched, hdel,
      isPublishOfName]

/-- Closed instance of C5: the spec's worked example — the single latest
commit shows `a.graphql` modified, the cumulative diff is empty — gives one
delete and zero publishes for the derived name in the update plan. -/
theorem update_revert_single_delete_witness :
    ((["c1", "c2"] : List String).getLast? = some "c2")
    ∧ ("a.graphql" ∉ ([] : List String))
    ∧ ((updatePlan (fun p => p)
        ⟨"key", "token", ActionType.update, "ns", [⟨"ff", ["team=a"]⟩],
          [⟨"sg", "a.graphql", "http://u"⟩], "c"⟩ 7 []
        (getRemovedGraphQLFilesInLastCommit ["c1", "c2"]
          (fun sha => if sha == "c2" then some [⟨"a.graphql", "modified"⟩] else none) [])
        (fun _ => none)).countP
        (isDeleteSubgraphOfName (featureSubgraphNameUpdate "sg" "ns" 7)) = 1)
    ∧ ((updatePlan (fun p => p)
        ⟨"key", "token", ActionType.update, "ns", [⟨"ff", ["team=a"]⟩],
          [⟨"sg", "a.graphql", "http://u"⟩], "c"⟩ 7 []
        (getRemovedGraphQLFilesInLastCommit ["c1", "c2"]
          (fun sha => if sha == "c2" then some [⟨"a.graphql", "modified"⟩] else none) [])
        (fun _ => none)).countP
        (isPublishOfName (featureSubgraphNameUpdate "sg" "ns" 7)) = 0) :=
  ⟨by decide, by decide,
   update_revert_single_delete (fun p => p) "key" "token" "ns" "c" "c2"
     [⟨"ff", ["team=a"]⟩] ⟨"sg", "a.graphql", "http://u"⟩ 7 [] ["c1", "c2"]
     (fun sha => if sha == "c2" then some [⟨"a.graphql", "modified"⟩] else none)
     (fun _ => none) (by decide) (by decide) rfl (by decide) (by simp)⟩

/-- C10: a changed file reported with status "renamed" that matches the schema
globs and a configured subgraph's resolved path is inserted into both the
Deleted and the Added buckets, so the filtered changed-file list contains the
path twice, and both a create run and an update run issue the feature-subgraph
publish operation for the same derived name twice. -/
theorem renamed_schema_file_double_publish (resolveFile : String → String)
    (apiKey token nsp cfgPath : String) (ffs : List FeatureFlag) (sg : Subgraph)
    (prNumber : Nat) (f : String) (listResp : FeatureFlag → Option (List String))
    (hmatch : (graphqlFilePatterns.any fun pat => mmMatch pat f) = true)
    (hnorm : normalizeSeparators f = f)
    (hres : resolveFile f = sg.schemaPath) :
    (getChangedFilesFromGithubAPI [⟨f, FileStatus.renamed⟩]).deleted = [f]
    ∧ (getChangedFilesFromGithubAPI [⟨f, FileStatus.renamed⟩]).added = [f]
    ∧ getFilteredChangedFiles (getChangedFilesFromGithubAPI [⟨f, FileStatus.renamed⟩])
        graphqlFilePatterns = [f, f]
    ∧ ((createPlan resolveFile ⟨apiKey, token, ActionType.create, nsp, ffs, [sg], cfgPath⟩
        prNumber
        (getFilteredChangedFiles (getChangedFilesFromGithubAPI [⟨f, FileStatus.renamed⟩])
          graphqlFilePatterns)).countP
        (isPublishOfName (featureSubgraphNameCreate sg.name nsp prNumber)) = 2)
    ∧ ((updatePlan resolveFile ⟨apiKey, token, ActionType.update, nsp, ffs, [sg], cfgPath⟩
        prNumber
        (getFilteredChangedFiles (getChangedFilesFromGithubAPI [⟨f, FileStatus.renamed⟩])
          graphqlFilePatterns) [] listResp).countP
        (isPublishOfName (featureSubgraphNameUpdate sg.name nsp prNumber)) = 2) := by
  have hcf : getChangedFilesFromGithubAPI [⟨f, FileStatus.renamed⟩]
      = ⟨[f], [], [f], [], [], [], [], []⟩ := rfl
  have hfiltered : getFilteredChangedFiles (getChangedFilesFromGithubAPI
      [⟨f, FileStatus.renamed⟩]) graphqlFilePatterns = [f, f] := by
    rw [hcf]
    simp [getFilteredChangedFiles, bucketsInOrder, hmatch, hnorm]
  have hbeq : (resolveFile f == sg.schemaPath) = true := by simp [hres]
  have hdouble : matchedSubgraphs resolveFile [sg] [f, f] = [sg, sg] := by
    simp [matchedSubgraphs, List.find?, hbeq]
  refine ⟨rfl, rfl, hfiltered, ?_, ?_⟩
  · rw [hfiltered]
    have hflags : (ffs.map fun ff =>
        RemoteOp.createFeatureFlag (derivedFeatureFlagName ff.name prNumber) nsp ff.labels
          [featureSubgraphNameCreate sg.name nsp prNumber,
           featureSubgraphNameCreate sg.name nsp prNumber] true).countP
        (isPublishOfName (featureSubgraphNameCreate sg.name nsp prNumber)) = 0 := by
      apply List.countP_eq_zero.mpr
      intro op hop
      rcases List.mem_map.mp hop with ⟨ff, _, rfl⟩
      simp [isPublishOfName]
    simp [createPlan, hdouble, isPublishOfName, hflags]
  · rw [hfiltered]
    have hflags : (ffs.flatMap fun ff =>
        [RemoteOp.listFeatureFlags nsp,
         updateFlagOp nsp prNumber
           [featureSubgraphNameUpdate sg.name nsp prNumber,
            featureSubgraphNameUpdate sg.name nsp prNumber] listResp ff]).countP
        (isPublishOfName (featureSubgraphNameUpdate sg.name nsp prNumber)) = 0 := by
      apply List.countP_eq_zero.mpr
      intro op hop
      rcases List.mem_flatMap.mp hop with ⟨ff, _, hopmem⟩
      rcases List.mem_cons.mp hopmem with rfl | hopmem
      · simp [isPublishOfName]
      · rcases List.mem_singleton.mp hopmem with rfl
        simp only [updateFlagOp]
        split <;> simp [isPublishOfName]
    simp [updatePlan, updateFeatureSubgraphNames, hdouble, isPublishOfName, hflags]

/-- Closed instance of C10: a single renamed file `a/b.graphql` matching the
configured subgraph appears in both the Deleted and the Added bucket, the
filtered list holds it twice, and the create and update plans publish the
derived name twice. -/
theorem renamed_schema_file_double_publish_witness :
    ((graphqlFilePatterns.any fun pat => mmMatch pat "a/b.graphql") = true)
    ∧ (normalizeSeparators "a/b.graphql" = "a/b.graphql")
    ∧ (getFilteredChangedFiles
        (getChangedFilesFromGithubAPI [⟨"a/b.graphql", FileStatus.renamed⟩])
        graphqlFilePatterns = ["a/b.graphql", "a/b.graphql"])
    ∧ ((createPlan (fun p => p)
        ⟨"key", "token", ActionType.create, "ns", [⟨"ff", ["team=a"]⟩],
          [⟨"sg", "a/b.graphql", "http://u"⟩], "c"⟩ 7
        (getFilteredChangedFiles
          (getChangedFilesFromGithubAPI [⟨"a/b.graphql", FileStatus.renamed⟩])
          graphqlFilePatterns)).countP
        (isPublishOfName (featureSubgraphNameCreate "sg" "ns" 7)) = 2)
    ∧ ((updatePlan (fun p => p)
        ⟨"key", "token", ActionType.update, "ns", [⟨"ff", ["team=a"]⟩],
          [⟨"sg", "a/b.graphql", "http://u"⟩], "c"⟩ 7
        (getFilteredChangedFiles
          (getChangedFilesFromGithubAPI [⟨"a/b.graphql", FileStatus.renamed⟩])
          graphqlFilePatterns) [] (fun _ => none)).countP
        (isPublishOfName (featureSubgraphNameUpdate "sg" "ns" 7)) = 2) :=
  ⟨by decide, by decide,
   (renamed_schema_file_double_publish (fun p => p) "key" "token" "ns" "c"
     [⟨"ff", ["team=a"]⟩] ⟨"sg", "a/b.graphql", "http://u"⟩ 7 "a/b.graphql"
     (fun _ => none) (by decide) (by decide) rfl).2.2.1,
   (renamed_schema_file_double_publish (fun p => p) "key" "token" "ns" "c"
     [⟨"ff", ["team=a"]⟩] ⟨"sg", "a/b.graphql", "http://u"⟩ 7 "a/b.graphql"
     (fun _ => none) (by decide) (by decide) rfl).2.2.2.1,
   (renamed_schema_file_double_publish (fun p => p) "key" "token" "ns" "c"
     [⟨"ff", ["team=a"]⟩] ⟨"sg", "a/b.graphql", "http://u"⟩ 7 "a/b.graphql"
     (fun _ => none) (by decide) (by decide) rfl).2.2.2.2⟩

end CosmoPreviews
